import Mathlib

/-!
Shallow embedding of the wallit-server user backend.

The embedding follows the JavaScript source:
- `src/lib/error.js` : `createError`, `errorHandler`
- `src/lib/helpers.js` : `validateFields`
- `src/models/User.js` : the user table (id, firstname, lastname, email, password)
- `src/controllers/user.js` : `createUser`, `authenticateUser`, `findUserByEmail`,
  `getUserByEmail`, `validateUser`, `validateEmail`

JavaScript objects appearing as request bodies are modelled as association
lists over a small value type `JsVal` that carries JS falsiness. Database
access through Sequelize is modelled by an explicit `UserStore` (a list of
rows plus the auto-increment counter). bcrypt is modelled by an executable
salted hash: `bcrypt.hashWith cost salt pw` prepends a salt block, a cost
block and sentinel separators to the password, and `bcrypt.compare` parses
the stored hash and compares the embedded password, which matches the
observable behaviour of bcrypt compare (true exactly on the password the
hash was derived from). The salt is an ambient parameter of `createUser`,
standing for the entropy bcrypt draws.
-/

/-- A JavaScript value, restricted to the shapes that occur in this program. -/
inductive JsVal where
  | undef : JsVal
  | null : JsVal
  | str : String → JsVal
  | num : Int → JsVal
  | bool : Bool → JsVal
deriving DecidableEq, Repr

/-- JS truthiness for `JsVal`. -/
def JsVal.truthy : JsVal → Bool
  | .undef => false
  | .null => false
  | .str s => !(s == "")
  | .num n => !(n == 0)
  | .bool b => b

/-- View an optional string (a field that may be absent) as a `JsVal`. -/
def optStr : Option String → JsVal
  | some s => JsVal.str s
  | none => JsVal.undef

/-- Truthiness of an optional string field: present and non-empty. -/
def truthyStr (o : Option String) : Bool := (optStr o).truthy

/-- Truthiness of an optional number (used by `errorHandler` for `error.code`). -/
def truthyNum (o : Option Nat) : Bool :=
  match o with
  | some n => !(n == 0)
  | none => false

/-- Property access `obj[k]` on a JS object modelled as an association list:
the first binding wins, absent keys give `undefined`. -/
def jsLookup (l : List (String × JsVal)) (k : String) : JsVal :=
  match l.find? (fun p => p.1 == k) with
  | some p => p.2
  | none => JsVal.undef

/-- An error value produced inside the service: `createError` always sets
both a numeric `code` and a `message`. -/
structure JsError where
  code : Nat
  message : String
deriving DecidableEq, Repr

/-- `createError(code, message)` from `src/lib/error.js`: `new Error(message ||
"Oops! something went wrong.")` with `error.code = code || 500`. The
arguments are optional and falsy values fall back to the defaults. -/
def createError (code : Option Nat) (message : Option String) : JsError :=
  { code := if truthyNum code then code.getD 500 else 500
    message := if truthyStr message then message.getD "" else "Oops! something went wrong." }

/-- An arbitrary error reaching the express error middleware: `code` and
`message` may be absent there. -/
structure RawError where
  code : Option Nat
  message : Option String
deriving DecidableEq, Repr

/-- `errorHandler(error, req, res, next)` from `src/lib/error.js`. Returns
the pair (HTTP status, response body) together with the logged line. -/
def errorHandler (e : RawError) : (Nat × String) × String :=
  let code := if truthyNum e.code then e.code.getD 500 else 500
  let message := if truthyStr e.message then e.message.getD "" else "Oops! Something went wrong"
  ((code, message), "Status Code " ++ toString code ++ ": " ++ message)

/-! ## bcrypt model -/

namespace bcrypt

/-- Character-level hash layout: a unary salt block of S, a sentinel, a
unary cost block of C, a sentinel, then the password characters. -/
def hashChars (cost salt : Nat) (pw : List Char) : List Char :=
  List.replicate salt 'S' ++ '$' :: (List.replicate cost 'C' ++ '$' :: pw)

/-- Character-level compare: parse the salt and cost blocks off the hash and
compare the remaining characters with the candidate password. -/
def compareChars (pw hash : List Char) : Bool :=
  match hash.dropWhile (fun c => c == 'S') with
  | '$' :: r2 =>
    (match r2.dropWhile (fun c => c == 'C') with
     | '$' :: pwChars => pwChars == pw
     | _ => false)
  | _ => false

/-- Model of `bcrypt.hash(password, cost)` for a given draw of salt: distinct
salts give distinct hashes of the same password. -/
def hashWith (cost salt : Nat) (password : String) : String :=
  ⟨hashChars cost salt password.data⟩

/-- Model of `bcrypt.compare(password, hash)`: recover the embedded salt and
cost from the hash and check that the hash is the hash of `password` under
them, which is true exactly when `password` is the hashed password. -/
def compare (password hash : String) : Bool :=
  compareChars password.data hash.data

end bcrypt

/-! ## Data model: the users table (src/models/User.js) -/

/-- One row of the `users` table: id (auto-increment primary key),
firstname, lastname, email, and the stored password hash. -/
structure UserRecord where
  id : Nat
  firstname : String
  lastname : String
  email : String
  password : String
deriving DecidableEq, Repr

/-- The persisted user store: the rows plus the auto-increment counter
(Sequelize assigns ids 1, 2, ... in insertion order). -/
structure UserStore where
  rows : List UserRecord
  nextId : Nat
deriving DecidableEq, Repr

/-- The store right after `sequelize.sync({ force: true })`: no rows. -/
def UserStore.empty : UserStore := ⟨[], 1⟩

/-- `User.findOne({ where: { email } })`: the first row with that email. -/
def UserStore.findOneByEmail (s : UserStore) (e : String) : Option UserRecord :=
  s.rows.find? (fun r => r.email == e)

/-- `User.create(user)`: insert a row with the next auto-increment id and
return the new store together with the saved row. -/
def UserStore.insert (s : UserStore) (fn ln em pw : String) : UserStore × UserRecord :=
  let r : UserRecord := ⟨s.nextId, fn, ln, em, pw⟩
  (⟨s.rows ++ [r], s.nextId + 1⟩, r)

/-- `dataValues` of a full Sequelize instance: all five attributes. -/
def UserRecord.dataValues (u : UserRecord) : List (String × JsVal) :=
  [("id", JsVal.num (u.id : Int)), ("firstname", JsVal.str u.firstname),
   ("lastname", JsVal.str u.lastname), ("email", JsVal.str u.email),
   ("password", JsVal.str u.password)]

/-- A Sequelize instance fetched with `attributes: ["id", "firstname",
"lastname", "email"]`: the password column is not fetched. -/
structure UserView where
  id : Nat
  firstname : String
  lastname : String
  email : String
deriving DecidableEq, Repr

/-- `dataValues` of an attribute-restricted instance: the four columns. -/
def UserView.dataValues (u : UserView) : List (String × JsVal) :=
  [("id", JsVal.num (u.id : Int)), ("firstname", JsVal.str u.firstname),
   ("lastname", JsVal.str u.lastname), ("email", JsVal.str u.email)]

/-- Restrict a row to the four non-password attributes. -/
def UserRecord.toView (u : UserRecord) : UserView :=
  ⟨u.id, u.firstname, u.lastname, u.email⟩

/-! ## HTTP responses -/

/-- A response body: `res.send(string)` or `res.send(object)` (JSON). -/
inductive Body where
  | text : String → Body
  | json : List (String × JsVal) → Body
deriving DecidableEq, Repr

/-- JSON serialization of an object drops properties whose value is
`undefined` (this is what express `res.send` does with the spread object
`{...user.dataValues, password: undefined}`). -/
def serializeFields (l : List (String × JsVal)) : List (String × JsVal) :=
  l.filter (fun p => !(p.2 == JsVal.undef))

/-- JS object update `{...obj, k: v}` where the spread is evaluated first:
an existing key keeps its position with the new value, a fresh key is
appended. -/
def setField (l : List (String × JsVal)) (k : String) (v : JsVal) : List (String × JsVal) :=
  if l.any (fun p => p.1 == k) then l.map (fun p => if p.1 == k then (k, v) else p)
  else l ++ [(k, v)]

/-! ## Field validator (src/lib/helpers.js) -/

/-- `rules[field]`: the label bound to a field name, if any. -/
def ruleVal (rules : List (String × String)) (f : String) : Option String :=
  (rules.find? (fun p => p.1 == f)).map (fun p => p.2)

/-- The `forEach` loop of `validateFields`: throw on the first field whose
rule label is truthy while the entity value is falsy. -/
def checkFields (ent : List (String × JsVal)) (rules : List (String × String)) :
    List String → Except JsError Unit
  | [] => Except.ok ()
  | f :: fs =>
    match ruleVal rules f with
    | some lab =>
      if !(lab == "") && !(jsLookup ent f).truthy then
        Except.error (createError (some 400) (some (lab ++ " cannot be undefined")))
      else checkFields ent rules fs
    | none => checkFields ent rules fs

/-- `validateFields(entityToValidate, rules, fieldsToValidate)` from
`src/lib/helpers.js`. -/
def validateFields (entity : Option (List (String × JsVal)))
    (rules : Option (List (String × String)))
    (fieldsToValidate : Option (List String)) : Except JsError Unit :=
  match entity with
  | none =>
    Except.error (createError (some 400) (some "Entity to validate cannot be undefined or empty"))
  | some ent =>
    if ent.isEmpty then
      Except.error (createError (some 400) (some "Entity to validate cannot be undefined or empty"))
    else
      match rules with
      | none => Except.error (createError (some 400) (some "Rules cannot be undefined or empty"))
      | some rs =>
        if rs.isEmpty then
          Except.error (createError (some 400) (some "Rules cannot be undefined or empty"))
        else
          match fieldsToValidate with
          | none =>
            Except.error (createError (some 400) (some "Fields to validate cannot be undefined or empty"))
          | some fs =>
            if fs.isEmpty then
              Except.error (createError (some 400) (some "Fields to validate cannot be undefined or empty"))
            else checkFields ent rs fs

/-- The condition under which the `forEach` body of `validateFields` throws
for a field: a truthy rule label together with a falsy entity value. -/
def triggersB (ent : List (String × JsVal)) (rules : List (String × String))
    (f : String) : Bool :=
  match ruleVal rules f with
  | some lab => !(lab == "") && !(jsLookup ent f).truthy
  | none => false

/-! ## User controller (src/controllers/user.js) -/

/-- The fixed `validationRules` mapping of `validateUser`. -/
def validationRules : List (String × String) :=
  [("id", "ID"), ("firstname", "Firstname"), ("lastname", "Lastname"),
   ("email", "Email"), ("password", "Password")]

/-- `validateUser(user, fieldsToValidate)`. -/
def validateUser (user : Option (List (String × JsVal)))
    (fieldsToValidate : List String) : Except JsError Unit :=
  match user with
  | none => Except.error (createError (some 400) (some "User cannot be undefined"))
  | some u => validateFields (some u) (some validationRules) (some fieldsToValidate)

/-- `validateEmail(email)`: reject a falsy email, then reject an email some
existing row already has. -/
def validateEmail (store : UserStore) (email : Option String) : Except JsError Unit :=
  if !truthyStr email then
    Except.error (createError (some 400) (some "Email cannot be undefined"))
  else
    match store.findOneByEmail (email.getD "") with
    | some _ => Except.error (createError (some 409) (some "This email is already taken."))
    | none => Except.ok ()

/-- A JSON request body for the user routes: each of the four fields is a
string when present and absent otherwise. -/
structure UserInput where
  firstname : Option String
  lastname : Option String
  email : Option String
  password : Option String
deriving DecidableEq, Repr

/-- The request body as the JS object the validator sees. -/
def UserInput.toObj (u : UserInput) : List (String × JsVal) :=
  (match u.firstname with | some s => [("firstname", JsVal.str s)] | none => [])
    ++ (match u.lastname with | some s => [("lastname", JsVal.str s)] | none => [])
    ++ (match u.email with | some s => [("email", JsVal.str s)] | none => [])
    ++ (match u.password with | some s => [("password", JsVal.str s)] | none => [])

/-- `createUser(req, res, next)`: validate, reject duplicate emails, hash
the password with cost 12 and the ambient salt draw, insert the row, and
answer 201 with the new id as text. Returns the store after the call and
the outcome (an error is what the controller hands to `next`). -/
def createUser (salt : Nat) (store : UserStore) (input : UserInput) :
    UserStore × Except JsError (Nat × Body) :=
  match validateUser (some input.toObj) ["firstname", "lastname", "email", "password"] with
  | Except.error e => (store, Except.error e)
  | Except.ok _ =>
    match validateEmail store input.email with
    | Except.error e => (store, Except.error e)
    | Except.ok _ =>
      let hashedPassword := bcrypt.hashWith 12 salt (input.password.getD "")
      let saved := store.insert (input.firstname.getD "") (input.lastname.getD "")
        (input.email.getD "") hashedPassword
      (saved.1, Except.ok (201, Body.text (toString saved.2.id)))

/-- `authenticateUser(req, res, next)`: validate, look the user up by email,
compare the password against the stored hash, and answer 200 with the
record spread over `password: undefined`. -/
def authenticateUser (store : UserStore) (credentials : UserInput) :
    Except JsError (Nat × Body) :=
  match validateUser (some credentials.toObj) ["email", "password"] with
  | Except.error e => Except.error e
  | Except.ok _ =>
    match store.findOneByEmail (credentials.email.getD "") with
    | none => Except.error (createError (some 401) (some "Invalid credentials"))
    | some user =>
      if bcrypt.compare (credentials.password.getD "") user.password then
        Except.ok (200, Body.json (serializeFields (setField user.dataValues "password" JsVal.undef)))
      else Except.error (createError (some 401) (some "Invalid credentials"))

/-- `getUserByEmail(email)`: reject a falsy email, fetch by email with the
four non-password attributes, reject a miss. -/
def getUserByEmail (store : UserStore) (email : Option String) : Except JsError UserView :=
  if !truthyStr email then
    Except.error (createError (some 400) (some "Invalid email"))
  else
    match store.findOneByEmail (email.getD "") with
    | none =>
      Except.error (createError (some 400) (some "Could not find a user with the given email"))
    | some u => Except.ok u.toView

/-- `findUserByEmail(req, res, next)`: answer 200 with the dataValues of
the fetched attribute-restricted instance. -/
def findUserByEmail (store : UserStore) (email : Option String) :
    Except JsError (Nat × Body) :=
  match getUserByEmail store email with
  | Except.error e => Except.error e
  | Except.ok user => Except.ok (200, Body.json (serializeFields user.dataValues))

/-- Access one of the four registration fields of a request body by its
JSON key (used to quantify over a required field by name). -/
def UserInput.field (u : UserInput) : String → Option String
  | "firstname" => u.firstname
  | "lastname" => u.lastname
  | "email" => u.email
  | "password" => u.password
  | _ => none

/-- The registration body of the round-trip scenario. -/
def regInput : UserInput := ⟨some "A", some "B", some "a@b.com", some "secret"⟩

/-- The matching credentials of the round-trip scenario. -/
def goodCreds : UserInput := ⟨none, none, some "a@b.com", some "secret"⟩

/-- The mismatched credentials of the round-trip scenario. -/
def wrongCreds : UserInput := ⟨none, none, some "a@b.com", some "wrong"⟩

/-- A sample stored row: the registration of `regInput` under salt draw 0. -/
def wUser : UserRecord := ⟨1, "A", "B", "a@b.com", bcrypt.hashWith 12 0 "secret"⟩

/-- A sample store holding just `wUser`. -/
def wStore : UserStore := ⟨[wUser], 2⟩

/-- A registration body lacking only the password field. -/
def wMissingPw : UserInput := ⟨some "A", some "B", some "a@b.com", none⟩

/-! ## Helper lemmas -/

namespace bcrypt

theorem dropWhile_replicate_sentinel (c stop : Char) (hne : stop ≠ c) (n : Nat)
    (l : List Char) :
    (List.replicate n c ++ stop :: l).dropWhile (fun x => x == c) = stop :: l := by
  have hf : (stop == c) = false := by simp [hne]
  induction n with
  | zero => simp [List.dropWhile, hf]
  | succ k ih => simpa [List.replicate_succ, List.dropWhile] using ih

theorem compareChars_hashChars (cost salt : Nat) (pw pw' : List Char) :
    compareChars pw' (hashChars cost salt pw) = (pw' == pw) := by
  have hS : ('$' : Char) ≠ 'S' := by decide
  have hC : ('$' : Char) ≠ 'C' := by decide
  unfold compareChars hashChars
  rw [dropWhile_replicate_sentinel 'S' '$' hS]
  simp only
  rw [dropWhile_replicate_sentinel 'C' '$' hC]
  exact BEq.comm

/-- `compare` answers true exactly on the password the hash came from. -/
theorem compare_hashWith (cost salt : Nat) (pw pw' : String) :
    compare pw' (hashWith cost salt pw) = (pw' == pw) := by
  have hdata : (hashWith cost salt pw).data = hashChars cost salt pw.data := rfl
  have h1 : compare pw' (hashWith cost salt pw)
      = compareChars pw'.data (hashChars cost salt pw.data) := by
    unfold compare
    rw [hdata]
  rw [h1, compareChars_hashChars]
  by_cases h : pw' = pw
  · subst h; simp
  · have h2 : pw'.data ≠ pw.data := fun hd =>
      h (by cases pw'; cases pw; exact congrArg String.mk hd)
    simp [h, h2]

/-- The stored hash is never the plaintext password. -/
theorem hashWith_ne_password (cost salt : Nat) (pw : String) :
    hashWith cost salt pw ≠ pw := by
  intro h
  have hd : hashChars cost salt pw.data = pw.data := congrArg String.data h
  have hlen := congrArg List.length hd
  simp [hashChars, List.length_append, List.length_replicate] at hlen
  omega

end bcrypt

theorem str_append_ne_empty (s t : String) (ht : t.data ≠ []) : ((s ++ t) == "") = false := by
  have hne : s ++ t ≠ "" := by
    intro hc
    have hd : s.data ++ t.data = ([] : List Char) := congrArg String.data hc
    exact ht (List.append_eq_nil.mp hd).2
  simp [hne]

theorem createError_eval (c : Nat) (m : String) (hc : (c == 0) = false)
    (hm : (m == "") = false) : createError (some c) (some m) = ⟨c, m⟩ := by
  simp [createError, truthyNum, truthyStr, optStr, JsVal.truthy, hc, hm]

theorem jsLookup_toObj_firstname (u : UserInput) :
    jsLookup u.toObj "firstname" = optStr u.firstname := by
  obtain ⟨f, l, e, p⟩ := u
  cases f <;> cases l <;> cases e <;> cases p <;> rfl

theorem jsLookup_toObj_lastname (u : UserInput) :
    jsLookup u.toObj "lastname" = optStr u.lastname := by
  obtain ⟨f, l, e, p⟩ := u
  cases f <;> cases l <;> cases e <;> cases p <;> rfl

theorem jsLookup_toObj_email (u : UserInput) :
    jsLookup u.toObj "email" = optStr u.email := by
  obtain ⟨f, l, e, p⟩ := u
  cases f <;> cases l <;> cases e <;> cases p <;> rfl

theorem jsLookup_toObj_password (u : UserInput) :
    jsLookup u.toObj "password" = optStr u.password := by
  obtain ⟨f, l, e, p⟩ := u
  cases f <;> cases l <;> cases e <;> cases p <;> rfl

theorem toObj_isEmpty (u : UserInput) :
    u.toObj.isEmpty = (u.firstname.isNone && u.lastname.isNone && u.email.isNone && u.password.isNone) := by
  obtain ⟨f, l, e, p⟩ := u
  cases f <;> cases l <;> cases e <;> cases p <;> rfl

theorem checkFields_cons (ent : List (String × JsVal))
    (rules : List (String × String)) (f : String) (fs : List String) :
    checkFields ent rules (f :: fs) =
      match ruleVal rules f with
      | some lab =>
        if !(lab == "") && !(jsLookup ent f).truthy then
          Except.error (createError (some 400) (some (lab ++ " cannot be undefined")))
        else checkFields ent rules fs
      | none => checkFields ent rules fs := rfl

theorem checkFields_cons_skip (ent : List (String × JsVal))
    (rules : List (String × String)) (f : String) (fs : List String)
    (h : triggersB ent rules f = false) :
    checkFields ent rules (f :: fs) = checkFields ent rules fs := by
  unfold triggersB at h
  rw [checkFields_cons]
  cases hrv : ruleVal rules f with
  | none => rfl
  | some lab =>
    rw [hrv] at h
    simp only at h
    simp [h]

theorem checkFields_cons_fail (ent : List (String × JsVal))
    (rules : List (String × String)) (f : String) (fs : List String) (lab : String)
    (hrv : ruleVal rules f = some lab) (hlab : (lab == "") = false)
    (hfal : (jsLookup ent f).truthy = false) :
    checkFields ent rules (f :: fs)
      = Except.error ⟨400, lab ++ " cannot be undefined"⟩ := by
  rw [checkFields_cons, hrv]
  have hne : ((lab ++ " cannot be undefined") == "") = false :=
    str_append_ne_empty lab " cannot be undefined" (by decide)
  simp [hlab, hfal, createError_eval 400 (lab ++ " cannot be undefined") rfl hne]

theorem checkFields_first_trigger (ent : List (String × JsVal))
    (rules : List (String × String)) (pre post : List String) (f : String)
    (lab : String) (hpre : ∀ g ∈ pre, triggersB ent rules g = false)
    (hrv : ruleVal rules f = some lab) (hlab : (lab == "") = false)
    (hfal : (jsLookup ent f).truthy = false) :
    checkFields ent rules (pre ++ f :: post)
      = Except.error ⟨400, lab ++ " cannot be undefined"⟩ := by
  induction pre with
  | nil => simpa using checkFields_cons_fail ent rules f post lab hrv hlab hfal
  | cons g gs ih =>
    have hg : triggersB ent rules g = false := hpre g (by simp)
    have hgs : ∀ x ∈ gs, triggersB ent rules x = false := fun x hx => hpre x (by simp [hx])
    rw [List.cons_append, checkFields_cons_skip ent rules g (gs ++ f :: post) hg]
    exact ih hgs

theorem validateUser_toObj_eq (u : UserInput) (f : String) (fs : List String)
    (hne : u.toObj.isEmpty = false) :
    validateUser (some u.toObj) (f :: fs) = checkFields u.toObj validationRules (f :: fs) := by
  simp [validateUser, validateFields, hne, validationRules]

theorem truthy_toObj_firstname (u : UserInput) :
    (jsLookup u.toObj "firstname").truthy = truthyStr u.firstname := by
  rw [jsLookup_toObj_firstname]
  rfl

theorem truthy_toObj_lastname (u : UserInput) :
    (jsLookup u.toObj "lastname").truthy = truthyStr u.lastname := by
  rw [jsLookup_toObj_lastname]
  rfl

theorem truthy_toObj_email (u : UserInput) :
    (jsLookup u.toObj "email").truthy = truthyStr u.email := by
  rw [jsLookup_toObj_email]
  rfl

theorem truthy_toObj_password (u : UserInput) :
    (jsLookup u.toObj "password").truthy = truthyStr u.password := by
  rw [jsLookup_toObj_password]
  rfl

theorem ruleVal_firstname : ruleVal validationRules "firstname" = some "Firstname" := rfl

theorem ruleVal_lastname : ruleVal validationRules "lastname" = some "Lastname" := rfl

theorem ruleVal_email : ruleVal validationRules "email" = some "Email" := rfl

theorem ruleVal_password : ruleVal validationRules "password" = some "Password" := rfl

theorem truthyStr_iff (o : Option String) :
    truthyStr o = true ↔ ∃ s, o = some s ∧ (s == "") = false := by
  cases o with
  | none => simp [truthyStr, optStr, JsVal.truthy]
  | some s => simp [truthyStr, optStr, JsVal.truthy]

theorem checkAuth_eq (u : UserInput) :
    checkFields u.toObj validationRules ["email", "password"] =
      (if truthyStr u.email = false then Except.error ⟨400, "Email cannot be undefined"⟩
       else if truthyStr u.password = false then Except.error ⟨400, "Password cannot be undefined"⟩
       else Except.ok ()) := by
  cases he : truthyStr u.email with
  | false =>
    rw [checkFields_cons_fail u.toObj validationRules "email" ["password"] "Email"
      ruleVal_email (by decide) (by rw [truthy_toObj_email]; exact he)]
    simp [he]
  | true =>
    have hskip : triggersB u.toObj validationRules "email" = false := by
      simp [triggersB, ruleVal_email, truthy_toObj_email, he]
    rw [checkFields_cons_skip _ _ _ _ hskip]
    cases hp : truthyStr u.password with
    | false =>
      rw [checkFields_cons_fail u.toObj validationRules "password" [] "Password"
        ruleVal_password (by decide) (by rw [truthy_toObj_password]; exact hp)]
      simp [he, hp]
    | true =>
      have hskip2 : triggersB u.toObj validationRules "password" = false := by
        simp [triggersB, ruleVal_password, truthy_toObj_password, hp]
      rw [checkFields_cons_skip _ _ _ _ hskip2]
      simp [he, hp, checkFields]

theorem checkCreate_eq (u : UserInput) :
    checkFields u.toObj validationRules ["firstname", "lastname", "email", "password"] =
      (if truthyStr u.firstname = false then Except.error ⟨400, "Firstname cannot be undefined"⟩
       else if truthyStr u.lastname = false then Except.error ⟨400, "Lastname cannot be undefined"⟩
       else if truthyStr u.email = false then Except.error ⟨400, "Email cannot be undefined"⟩
       else if truthyStr u.password = false then Except.error ⟨400, "Password cannot be undefined"⟩
       else Except.ok ()) := by
  cases hf : truthyStr u.firstname with
  | false =>
    rw [checkFields_cons_fail u.toObj validationRules "firstname" ["lastname", "email", "password"]
      "Firstname" ruleVal_firstname (by decide) (by rw [truthy_toObj_firstname]; exact hf)]
    simp [hf]
  | true =>
    have hskip : triggersB u.toObj validationRules "firstname" = false := by
      simp [triggersB, ruleVal_firstname, truthy_toObj_firstname, hf]
    rw [checkFields_cons_skip _ _ _ _ hskip]
    cases hl : truthyStr u.lastname with
    | false =>
      rw [checkFields_cons_fail u.toObj validationRules "lastname" ["email", "password"]
        "Lastname" ruleVal_lastname (by decide) (by rw [truthy_toObj_lastname]; exact hl)]
      simp [hf, hl]
    | true =>
      have hskip2 : triggersB u.toObj validationRules "lastname" = false := by
        simp [triggersB, ruleVal_lastname, truthy_toObj_lastname, hl]
      rw [checkFields_cons_skip _ _ _ _ hskip2]
      rw [checkAuth_eq]
      simp [hf, hl]

theorem validateUserAuth_eq (u : UserInput) :
    validateUser (some u.toObj) ["email", "password"] =
      (if u.toObj.isEmpty then
        Except.error ⟨400, "Entity to validate cannot be undefined or empty"⟩
      else if truthyStr u.email = false then Except.error ⟨400, "Email cannot be undefined"⟩
      else if truthyStr u.password = false then Except.error ⟨400, "Password cannot be undefined"⟩
      else Except.ok ()) := by
  cases hne : u.toObj.isEmpty with
  | true =>
    simp only [validateUser, validateFields, hne, if_true]
    rw [createError_eval 400 "Entity to validate cannot be undefined or empty"
      (by decide) (by decide)]
  | false =>
    rw [validateUser_toObj_eq u "email" ["password"] hne, checkAuth_eq]
    simp

theorem validateUserCreate_eq (u : UserInput) :
    validateUser (some u.toObj) ["firstname", "lastname", "email", "password"] =
      (if u.toObj.isEmpty then
        Except.error ⟨400, "Entity to validate cannot be undefined or empty"⟩
      else if truthyStr u.firstname = false then
        Except.error ⟨400, "Firstname cannot be undefined"⟩
      else if truthyStr u.lastname = false then
        Except.error ⟨400, "Lastname cannot be undefined"⟩
      else if truthyStr u.email = false then Except.error ⟨400, "Email cannot be undefined"⟩
      else if truthyStr u.password = false then Except.error ⟨400, "Password cannot be undefined"⟩
      else Except.ok ()) := by
  cases hne : u.toObj.isEmpty with
  | true =>
    simp only [validateUser, validateFields, hne, if_true]
    rw [createError_eval 400 "Entity to validate cannot be undefined or empty"
      (by decide) (by decide)]
  | false =>
    rw [validateUser_toObj_eq u "firstname" ["lastname", "email", "password"] hne,
      checkCreate_eq]
    simp

theorem validateUserCreate_ok_inv (u : UserInput)
    (h : validateUser (some u.toObj) ["firstname", "lastname", "email", "password"]
      = Except.ok ()) :
    truthyStr u.firstname = true ∧ truthyStr u.lastname = true ∧
      truthyStr u.email = true ∧ truthyStr u.password = true := by
  rw [validateUserCreate_eq] at h
  split at h
  · exact absurd h (by simp)
  · split at h
    · exact absurd h (by simp)
    · split at h
      · exact absurd h (by simp)
      · split at h
        · exact absurd h (by simp)
        · split at h
          · exact absurd h (by simp)
          · rename_i h1 h2 h3 h4 h5
            exact ⟨by simpa using h2, by simpa using h3, by simpa using h4, by simpa using h5⟩

theorem validateEmail_ok_inv (store : UserStore) (o : Option String)
    (h : validateEmail store o = Except.ok ()) :
    truthyStr o = true ∧ store.findOneByEmail (o.getD "") = none := by
  unfold validateEmail at h
  cases ht : truthyStr o with
  | false => rw [ht] at h; exact absurd h (by simp)
  | true =>
    rw [ht] at h
    simp only [Bool.not_true, Bool.false_eq_true, if_false] at h
    cases hfind : store.findOneByEmail (o.getD "") with
    | some r => rw [hfind] at h; exact absurd h (by simp)
    | none => exact ⟨rfl, rfl⟩

theorem validateEmail_dup (store : UserStore) (em : String) (r : UserRecord)
    (hem : (em == "") = false) (hfind : store.findOneByEmail em = some r) :
    validateEmail store (some em)
      = Except.error ⟨409, "This email is already taken."⟩ := by
  have ht : truthyStr (some em) = true := by simp [truthyStr, optStr, JsVal.truthy, hem]
  unfold validateEmail
  rw [ht]
  simp only [Bool.not_true, Bool.false_eq_true, if_false, Option.getD_some, hfind]
  rw [createError_eval 409 "This email is already taken." (by decide) (by decide)]

theorem scrub_dataValues (u : UserRecord) :
    serializeFields (setField u.dataValues "password" JsVal.undef) =
      [("id", JsVal.num (u.id : Int)), ("firstname", JsVal.str u.firstname),
       ("lastname", JsVal.str u.lastname), ("email", JsVal.str u.email)] := rfl

theorem serialize_viewDataValues (u : UserView) :
    serializeFields u.dataValues = u.dataValues := rfl

theorem findOneByEmail_insert_self (store : UserStore) (fn ln em pw : String)
    (hnone : store.findOneByEmail em = none) :
    UserStore.findOneByEmail
        ⟨store.rows ++ [⟨store.nextId, fn, ln, em, pw⟩], store.nextId + 1⟩ em
      = some ⟨store.nextId, fn, ln, em, pw⟩ := by
  unfold UserStore.findOneByEmail at hnone ⊢
  rw [List.find?_append, hnone]
  simp [List.find?]

theorem createUser_ok_inv (salt : Nat) (store : UserStore) (input : UserInput)
    (store' : UserStore) (st : Nat) (body : Body)
    (h : createUser salt store input = (store', Except.ok (st, body))) :
    ∃ fn ln em pw, input.firstname = some fn ∧ input.lastname = some ln ∧
      input.email = some em ∧ input.password = some pw ∧
      (fn == "") = false ∧ (ln == "") = false ∧ (em == "") = false ∧ (pw == "") = false ∧
      store.findOneByEmail em = none ∧
      store' = ⟨store.rows ++ [⟨store.nextId, fn, ln, em, bcrypt.hashWith 12 salt pw⟩],
        store.nextId + 1⟩ ∧
      st = 201 ∧ body = Body.text (toString store.nextId) := by
  unfold createUser at h
  cases hv : validateUser (some input.toObj) ["firstname", "lastname", "email", "password"] with
  | error e => rw [hv] at h; exact absurd h (by simp)
  | ok u =>
    rw [hv] at h
    cases hve : validateEmail store input.email with
    | error e => rw [hve] at h; exact absurd h (by simp)
    | ok v =>
      rw [hve] at h
      obtain ⟨hf, hl, he, hp⟩ := validateUserCreate_ok_inv input hv
      obtain ⟨fn, hfn, hfn'⟩ := (truthyStr_iff _).mp hf
      obtain ⟨ln, hln, hln'⟩ := (truthyStr_iff _).mp hl
      obtain ⟨em, hem, hem'⟩ := (truthyStr_iff _).mp he
      obtain ⟨pw, hpw, hpw'⟩ := (truthyStr_iff _).mp hp
      obtain ⟨htr, hfind⟩ := validateEmail_ok_inv store input.email hve
      rw [hem] at hfind
      simp only [Option.getD_some] at hfind
      rw [hfn, hln, hem, hpw] at h
      have h1 : UserStore.mk
          (store.rows ++ [⟨store.nextId, fn, ln, em, bcrypt.hashWith 12 salt pw⟩])
          (store.nextId + 1) = store' := congrArg Prod.fst h
      have h2 : (Except.ok (201, Body.text (toString store.nextId))
          : Except JsError (Nat × Body)) = Except.ok (st, body) := congrArg Prod.snd h
      have h3 : (201, Body.text (toString store.nextId)) = (st, body) := by
        injection h2
      have hst : st = 201 := (congrArg Prod.fst h3).symm
      have hbody : body = Body.text (toString store.nextId) := (congrArg Prod.snd h3).symm
      exact ⟨fn, ln, em, pw, hfn, hln, hem, hpw, hfn', hln', hem', hpw', hfind,
        h1.symm, hst, hbody⟩

/-! ## Claim theorems -/

/-- C10: for every store, `findUserByEmail` with an empty-string email fails
with 400 and message "Invalid email", exactly as when the email parameter is
absent: the guard is falsiness, not strict absence, and the result does not
depend on the store. -/
theorem claim_C10_empty_email (store : UserStore) :
    findUserByEmail store (some "") = Except.error ⟨400, "Invalid email"⟩ ∧
    findUserByEmail store none = Except.error ⟨400, "Invalid email"⟩ ∧
    findUserByEmail store (some "") = findUserByEmail store none :=
  ⟨rfl, rfl, rfl⟩

/-- C6: `findUserByEmail` fails 400 on an absent (falsy) email, fails 400
with message "Could not find a user with the given email" when no record has
the email, and on success returns 200 with exactly the fields id, firstname,
lastname and email of the matched record, with no password field. -/
theorem claim_C6_findUserByEmail (store : UserStore) (email : Option String) :
    (truthyStr email = false →
      findUserByEmail store email = Except.error ⟨400, "Invalid email"⟩) ∧
    (∀ e, email = some e → (e == "") = false → store.findOneByEmail e = none →
      findUserByEmail store email
        = Except.error ⟨400, "Could not find a user with the given email"⟩) ∧
    (∀ e u, email = some e → (e == "") = false → store.findOneByEmail e = some u →
      findUserByEmail store email = Except.ok (200, Body.json
        [("id", JsVal.num (u.id : Int)), ("firstname", JsVal.str u.firstname),
         ("lastname", JsVal.str u.lastname), ("email", JsVal.str u.email)]) ∧
      jsLookup [("id", JsVal.num (u.id : Int)), ("firstname", JsVal.str u.firstname),
         ("lastname", JsVal.str u.lastname), ("email", JsVal.str u.email)] "password"
        = JsVal.undef) := by
  refine ⟨?_, ?_, ?_⟩
  · intro ht
    simp [findUserByEmail, getUserByEmail, ht,
      createError_eval 400 "Invalid email" (by decide) (by decide)]
  · intro e he hne hfind
    subst he
    have ht : truthyStr (some e) = true := by
      simp [truthyStr, optStr, JsVal.truthy, hne]
    simp [findUserByEmail, getUserByEmail, ht, hfind,
      createError_eval 400 "Could not find a user with the given email"
        (by decide) (by decide)]
  · intro e u he hne hfind
    subst he
    have ht : truthyStr (some e) = true := by
      simp [truthyStr, optStr, JsVal.truthy, hne]
    refine ⟨?_, rfl⟩
    simp only [findUserByEmail, getUserByEmail, ht, hfind, Bool.not_true,
      Bool.false_eq_true, if_false, Option.getD_some]
    rfl

/-- C8: the error middleware responds with the status equal to the error
code when one is set (and nonzero), with 500 when no code is set, with the
error message as plain body when one is set, and logs the code and the
message. -/
theorem claim_C8_errorHandler (e : RawError) :
    (∀ c, e.code = some c → (c == 0) = false → (errorHandler e).1.1 = c) ∧
    (e.code = none → (errorHandler e).1.1 = 500) ∧
    (∀ m, e.message = some m → (m == "") = false → (errorHandler e).1.2 = m) ∧
    (errorHandler e).2
      = "Status Code " ++ toString (errorHandler e).1.1 ++ ": " ++ (errorHandler e).1.2 := by
  refine ⟨?_, ?_, ?_, rfl⟩
  · intro c hc hc0
    simp [errorHandler, hc, truthyNum, hc0]
  · intro hc
    simp [errorHandler, hc, truthyNum]
  · intro m hm hm0
    simp [errorHandler, hm, truthyStr, optStr, JsVal.truthy, hm0]

/-- C9: whenever `createUser` fails, the store is unchanged: validation and
the duplicate-email check precede hashing and insertion, so no record is
inserted on any error path. -/
theorem claim_C9_error_preserves_store (salt : Nat) (store : UserStore)
    (input : UserInput) (store' : UserStore) (e : JsError)
    (h : createUser salt store input = (store', Except.error e)) :
    store' = store := by
  unfold createUser at h
  cases hv : validateUser (some input.toObj) ["firstname", "lastname", "email", "password"] with
  | error e0 =>
    rw [hv] at h
    exact (congrArg Prod.fst h).symm
  | ok u =>
    rw [hv] at h
    cases hve : validateEmail store input.email with
    | error e1 =>
      rw [hve] at h
      exact (congrArg Prod.fst h).symm
    | ok v =>
      rw [hve] at h
      exact absurd (congrArg Prod.snd h) (by simp)

/-- C1: with email and password present, authentication fails with 401 and
message "Invalid credentials" both when no record has the email and when a
record has it but the password does not verify against the stored hash; the
error value is literally the same in the two cases. -/
theorem claim_C1_auth_invalid_credentials (store : UserStore) (cred : UserInput)
    (he : truthyStr cred.email = true) (hp : truthyStr cred.password = true) :
    (store.findOneByEmail (cred.email.getD "") = none →
      authenticateUser store cred = Except.error ⟨401, "Invalid credentials"⟩) ∧
    (∀ u, store.findOneByEmail (cred.email.getD "") = some u →
      bcrypt.compare (cred.password.getD "") u.password = false →
      authenticateUser store cred = Except.error ⟨401, "Invalid credentials"⟩) := by
  have hne : cred.toObj.isEmpty = false := by
    rw [toObj_isEmpty]
    obtain ⟨s, hs, h0⟩ := (truthyStr_iff _).mp he
    rw [hs]
    simp
  have hv : validateUser (some cred.toObj) ["email", "password"] = Except.ok () := by
    rw [validateUserAuth_eq, hne]
    simp [he, hp]
  constructor
  · intro hfind
    simp [authenticateUser, hv, hfind,
      createError_eval 401 "Invalid credentials" (by decide) (by decide)]
  · intro u hfind hcmp
    simp [authenticateUser, hv, hfind, hcmp,
      createError_eval 401 "Invalid credentials" (by decide) (by decide)]

/-- C2: a successful authentication has status 200 and its JSON body holds
exactly the non-password fields of the matched record: the password entry of
the spread object is `undefined` and is dropped by serialization. -/
theorem claim_C2_auth_scrubs_password (store : UserStore) (cred : UserInput)
    (st : Nat) (body : Body)
    (h : authenticateUser store cred = Except.ok (st, body)) :
    st = 200 ∧ ∃ u, store.findOneByEmail (cred.email.getD "") = some u ∧
      body = Body.json
        [("id", JsVal.num (u.id : Int)), ("firstname", JsVal.str u.firstname),
         ("lastname", JsVal.str u.lastname), ("email", JsVal.str u.email)] ∧
      jsLookup [("id", JsVal.num (u.id : Int)), ("firstname", JsVal.str u.firstname),
         ("lastname", JsVal.str u.lastname), ("email", JsVal.str u.email)] "password"
        = JsVal.undef := by
  unfold authenticateUser at h
  cases hv : validateUser (some cred.toObj) ["email", "password"] with
  | error e => rw [hv] at h; exact absurd h (by simp)
  | ok u0 =>
    simp only [hv] at h
    cases hfind : store.findOneByEmail (cred.email.getD "") with
    | none => simp only [hfind] at h; exact absurd h (by simp)
    | some u =>
      simp only [hfind] at h
      cases hcmp : bcrypt.compare (cred.password.getD "") u.password with
      | false => rw [hcmp] at h; exact absurd h (by simp)
      | true =>
        rw [hcmp, scrub_dataValues] at h
        simp only [Except.ok.injEq, Prod.mk.injEq, if_pos] at h
        obtain ⟨h1, h2⟩ := h
        exact ⟨h1.symm, u, rfl, h2.symm, rfl⟩

/-- C4: a successful `createUser` appends exactly one new record, whose
password field is the cost-12 salted hash of the input password and not the
plaintext, and responds 201 with the new id rendered as text. -/
theorem claim_C4_create_hashes_password (salt : Nat) (store : UserStore)
    (input : UserInput) (store' : UserStore) (st : Nat) (body : Body)
    (h : createUser salt store input = (store', Except.ok (st, body))) :
    ∃ fn ln em pw, input.firstname = some fn ∧ input.lastname = some ln ∧
      input.email = some em ∧ input.password = some pw ∧
      store'.rows = store.rows
        ++ [⟨store.nextId, fn, ln, em, bcrypt.hashWith 12 salt pw⟩] ∧
      bcrypt.hashWith 12 salt pw ≠ pw ∧
      st = 201 ∧ body = Body.text (toString store.nextId) := by
  obtain ⟨fn, ln, em, pw, hfn, hln, hem, hpw, h1, h2, h3, h4, hfind, hstore, hst, hbody⟩ :=
    createUser_ok_inv salt store input store' st body h
  refine ⟨fn, ln, em, pw, hfn, hln, hem, hpw, ?_, bcrypt.hashWith_ne_password 12 salt pw,
    hst, hbody⟩
  rw [hstore]

theorem createUser_dup_409 (salt : Nat) (store : UserStore) (input : UserInput)
    (em : String) (r : UserRecord)
    (hem : input.email = some em) (hem' : (em == "") = false)
    (hf : truthyStr input.firstname = true) (hl : truthyStr input.lastname = true)
    (hp : truthyStr input.password = true)
    (hfind : store.findOneByEmail em = some r) :
    createUser salt store input
      = (store, Except.error ⟨409, "This email is already taken."⟩) := by
  have he : truthyStr input.email = true := by
    rw [hem]
    simp [truthyStr, optStr, JsVal.truthy, hem']
  have hne : input.toObj.isEmpty = false := by
    rw [toObj_isEmpty, hem]
    simp
  have hv : validateUser (some input.toObj) ["firstname", "lastname", "email", "password"]
      = Except.ok () := by
    rw [validateUserCreate_eq, hne]
    simp [hf, hl, he, hp]
  have hve : validateEmail store input.email
      = Except.error ⟨409, "This email is already taken."⟩ := by
    rw [hem]
    exact validateEmail_dup store em r hem' hfind
  unfold createUser
  rw [hv, hve]

/-- C5: registering with an email some stored record already has makes
`createUser` fail with 409 for every valid input (sequential model); in
particular a second registration of the same input right after a successful
one fails with 409 and leaves the store as the first call left it. -/
theorem claim_C5_duplicate_email :
    (∀ (salt : Nat) (store : UserStore) (input : UserInput) (em : String) (r : UserRecord),
      input.email = some em → (em == "") = false →
      truthyStr input.firstname = true → truthyStr input.lastname = true →
      truthyStr input.password = true →
      store.findOneByEmail em = some r →
      createUser salt store input
        = (store, Except.error ⟨409, "This email is already taken."⟩)) ∧
    (∀ (salt₁ salt₂ : Nat) (store store₁ : UserStore) (input : UserInput)
      (st : Nat) (body : Body),
      createUser salt₁ store input = (store₁, Except.ok (st, body)) →
      createUser salt₂ store₁ input
        = (store₁, Except.error ⟨409, "This email is already taken."⟩)) := by
  constructor
  · intro salt store input em r hem hem' hf hl hp hfind
    exact createUser_dup_409 salt store input em r hem hem' hf hl hp hfind
  · intro salt₁ salt₂ store store₁ input st body h
    obtain ⟨fn, ln, em, pw, hfn, hln, hem, hpw, hfn', hln', hem', hpw', hfind, hstore,
      hst, hbody⟩ := createUser_ok_inv salt₁ store input store₁ st body h
    have hfind₁ : store₁.findOneByEmail em
        = some ⟨store.nextId, fn, ln, em, bcrypt.hashWith 12 salt₁ pw⟩ := by
      rw [hstore]
      exact findOneByEmail_insert_self store fn ln em (bcrypt.hashWith 12 salt₁ pw) hfind
    exact createUser_dup_409 salt₂ store₁ input em _ hem hem'
      (by rw [hfn]; simp [truthyStr, optStr, JsVal.truthy, hfn'])
      (by rw [hln]; simp [truthyStr, optStr, JsVal.truthy, hln'])
      (by rw [hpw]; simp [truthyStr, optStr, JsVal.truthy, hpw'])
      hfind₁

/-- C3: from the empty store, registering A B a@b.com secret succeeds with
201 and body "1"; authenticating with the right password then succeeds with
200 and the registered non-password fields (id 1), and authenticating with a
wrong password fails 401 — for every salt bcrypt may draw. -/
theorem claim_C3_round_trip (salt : Nat) :
    (createUser salt UserStore.empty regInput).2 = Except.ok (201, Body.text "1") ∧
    authenticateUser (createUser salt UserStore.empty regInput).1 goodCreds
      = Except.ok (200, Body.json
          [("id", JsVal.num 1), ("firstname", JsVal.str "A"),
           ("lastname", JsVal.str "B"), ("email", JsVal.str "a@b.com")]) ∧
    authenticateUser (createUser salt UserStore.empty regInput).1 wrongCreds
      = Except.error ⟨401, "Invalid credentials"⟩ := by
  have h1 : toString (1 : Nat) = "1" := by rfl
  have hstore : createUser salt UserStore.empty regInput
      = (⟨[⟨1, "A", "B", "a@b.com", bcrypt.hashWith 12 salt "secret"⟩], 2⟩,
         Except.ok (201, Body.text (toString (1 : Nat)))) := by rfl
  rw [h1] at hstore
  refine ⟨?_, ?_, ?_⟩
  · rw [hstore]
  · rw [hstore]
    have hcmp : bcrypt.compare "secret" (bcrypt.hashWith 12 salt "secret") = true := by
      rw [bcrypt.compare_hashWith]
      decide
    have hstep : authenticateUser
        ⟨[⟨1, "A", "B", "a@b.com", bcrypt.hashWith 12 salt "secret"⟩], 2⟩ goodCreds
        = (if bcrypt.compare "secret" (bcrypt.hashWith 12 salt "secret") then
            Except.ok (200, Body.json
              [("id", JsVal.num 1), ("firstname", JsVal.str "A"),
               ("lastname", JsVal.str "B"), ("email", JsVal.str "a@b.com")])
          else Except.error (createError (some 401) (some "Invalid credentials"))) := rfl
    rw [hstep, hcmp]
    simp
  · rw [hstore]
    have hcmp : bcrypt.compare "wrong" (bcrypt.hashWith 12 salt "secret") = false := by
      rw [bcrypt.compare_hashWith]
      decide
    have hstep : authenticateUser
        ⟨[⟨1, "A", "B", "a@b.com", bcrypt.hashWith 12 salt "secret"⟩], 2⟩ wrongCreds
        = (if bcrypt.compare "wrong" (bcrypt.hashWith 12 salt "secret") then
            Except.ok (200, Body.json
              [("id", JsVal.num 1), ("firstname", JsVal.str "A"),
               ("lastname", JsVal.str "B"), ("email", JsVal.str "a@b.com")])
          else Except.error (createError (some 401) (some "Invalid credentials"))) := rfl
    rw [hstep, hcmp]
    simp [createError_eval 401 "Invalid credentials" (by decide) (by decide)]

/-- C7 counterexample: the field "a" has an entry in the rules mapping (with
the empty-string label) and its entity value is falsy (absent), yet
`validateFields` succeeds, because the code tests the truthiness of the rule
label, not the presence of the entry. -/
theorem claim_C7_counterexample :
    ruleVal [("a", "")] "a" = some "" ∧
    (jsLookup [("x", JsVal.str "y")] "a").truthy = false ∧
    validateFields (some [("x", JsVal.str "y")]) (some [("a", "")]) (some ["a"])
      = Except.ok () :=
  ⟨rfl, rfl, rfl⟩

/-- C7 (amended): `validateFields` fails 400 when the entity, the rules or
the field list is absent or empty; otherwise it fails 400 with message
"(label) cannot be undefined" for the first listed field that has an entry
in the rules with a truthy (non-empty) label and a falsy entity value;
consequently omitting any one required field in `createUser` yields 400 with
the message naming that field. -/
theorem claim_C7_validateFields :
    (∀ rules fields, validateFields none rules fields
      = Except.error ⟨400, "Entity to validate cannot be undefined or empty"⟩) ∧
    (∀ rules fields, validateFields (some []) rules fields
      = Except.error ⟨400, "Entity to validate cannot be undefined or empty"⟩) ∧
    (∀ ent fields, ent.isEmpty = false → validateFields (some ent) none fields
      = Except.error ⟨400, "Rules cannot be undefined or empty"⟩) ∧
    (∀ ent fields, ent.isEmpty = false → validateFields (some ent) (some []) fields
      = Except.error ⟨400, "Rules cannot be undefined or empty"⟩) ∧
    (∀ ent rules, ent.isEmpty = false → rules.isEmpty = false →
      validateFields (some ent) (some rules) none
        = Except.error ⟨400, "Fields to validate cannot be undefined or empty"⟩) ∧
    (∀ ent rules, ent.isEmpty = false → rules.isEmpty = false →
      validateFields (some ent) (some rules) (some [])
        = Except.error ⟨400, "Fields to validate cannot be undefined or empty"⟩) ∧
    (∀ ent rules pre f post lab, ent.isEmpty = false →
      (∀ g, g ∈ pre → triggersB ent rules g = false) →
      ruleVal rules f = some lab → (lab == "") = false →
      (jsLookup ent f).truthy = false →
      validateFields (some ent) (some rules) (some (pre ++ f :: post))
        = Except.error ⟨400, lab ++ " cannot be undefined"⟩) ∧
    (∀ (salt : Nat) (store : UserStore) (input : UserInput) (f : String),
      f ∈ ["firstname", "lastname", "email", "password"] →
      truthyStr (input.field f) = false →
      (∀ g, g ∈ ["firstname", "lastname", "email", "password"] → g ≠ f →
        truthyStr (input.field g) = true) →
      createUser salt store input = (store,
        Except.error ⟨400, (ruleVal validationRules f).getD "" ++ " cannot be undefined"⟩)) := by
  have hEnt : ∀ rules fields, validateFields none rules fields
      = Except.error ⟨400, "Entity to validate cannot be undefined or empty"⟩ := by
    intro rules fields
    simp [validateFields,
      createError_eval 400 "Entity to validate cannot be undefined or empty"
        (by decide) (by decide)]
  refine ⟨hEnt, ?_, ?_, ?_, ?_, ?_, ?_, ?_⟩
  · intro rules fields
    simp [validateFields,
      createError_eval 400 "Entity to validate cannot be undefined or empty"
        (by decide) (by decide)]
  · intro ent fields hne
    simp [validateFields, hne,
      createError_eval 400 "Rules cannot be undefined or empty" (by decide) (by decide)]
  · intro ent fields hne
    simp [validateFields, hne,
      createError_eval 400 "Rules cannot be undefined or empty" (by decide) (by decide)]
  · intro ent rules hne hner
    simp [validateFields, hne, hner,
      createError_eval 400 "Fields to validate cannot be undefined or empty"
        (by decide) (by decide)]
  · intro ent rules hne hner
    simp [validateFields, hne, hner,
      createError_eval 400 "Fields to validate cannot be undefined or empty"
        (by decide) (by decide)]
  · intro ent rules pre f post lab hne hpre hrv hlab hfal
    have hner : rules.isEmpty = false := by
      cases rules with
      | nil => exact absurd hrv (by simp [ruleVal])
      | cons a l => rfl
    have hnef : ((pre ++ f :: post) : List String).isEmpty = false := by
      simp
    simp only [validateFields, hne, hner, hnef, Bool.false_eq_true, if_false]
    exact checkFields_first_trigger ent rules pre post f lab hpre hrv hlab hfal
  · intro salt store input f hmem hfalse hothers
    simp only [List.mem_cons, List.not_mem_nil, or_false] at hmem
    have hgoal : ∀ lab, truthyStr (input.field f) = false →
      validateUser (some input.toObj) ["firstname", "lastname", "email", "password"]
        = Except.error ⟨400, lab ++ " cannot be undefined"⟩ →
      (ruleVal validationRules f).getD "" = lab →
      createUser salt store input
        = (store, Except.error ⟨400, (ruleVal validationRules f).getD ""
            ++ " cannot be undefined"⟩) := by
      intro lab hfal hv hlab
      unfold createUser
      rw [hv, hlab]
    rcases hmem with rfl | rfl | rfl | rfl
    · have h2 := hothers "lastname" (by simp) (by decide)
      simp only [UserInput.field] at hfalse h2
      have hne : input.toObj.isEmpty = false := by
        rw [toObj_isEmpty]
        obtain ⟨s, hs, h0⟩ := (truthyStr_iff _).mp h2
        rw [hs]
        simp
      refine hgoal "Firstname" ?_ ?_ rfl
      · simp only [UserInput.field]
        exact hfalse
      · rw [validateUserCreate_eq, hne]
        simp [hfalse]
    · have h2 := hothers "firstname" (by simp) (by decide)
      simp only [UserInput.field] at hfalse h2
      have hne : input.toObj.isEmpty = false := by
        rw [toObj_isEmpty]
        obtain ⟨s, hs, h0⟩ := (truthyStr_iff _).mp h2
        rw [hs]
        simp
      refine hgoal "Lastname" ?_ ?_ rfl
      · simp only [UserInput.field]
        exact hfalse
      · rw [validateUserCreate_eq, hne]
        simp [hfalse, h2]
    · have h2 := hothers "firstname" (by simp) (by decide)
      have h3 := hothers "lastname" (by simp) (by decide)
      simp only [UserInput.field] at hfalse h2 h3
      have hne : input.toObj.isEmpty = false := by
        rw [toObj_isEmpty]
        obtain ⟨s, hs, h0⟩ := (truthyStr_iff _).mp h2
        rw [hs]
        simp
      refine hgoal "Email" ?_ ?_ rfl
      · simp only [UserInput.field]
        exact hfalse
      · rw [validateUserCreate_eq, hne]
        simp [hfalse, h2, h3]
    · have h2 := hothers "firstname" (by simp) (by decide)
      have h3 := hothers "lastname" (by simp) (by decide)
      have h4 := hothers "email" (by simp) (by decide)
      simp only [UserInput.field] at hfalse h2 h3 h4
      have hne : input.toObj.isEmpty = false := by
        rw [toObj_isEmpty]
        obtain ⟨s, hs, h0⟩ := (truthyStr_iff _).mp h2
        rw [hs]
        simp
      refine hgoal "Password" ?_ ?_ rfl
      · simp only [UserInput.field]
        exact hfalse
      · rw [validateUserCreate_eq, hne]
        simp [hfalse, h2, h3, h4]

/-! ## Witnesses -/

/-- Witness for C1 at a concrete store and credentials. -/
theorem claim_C1_witness :
    truthyStr goodCreds.email = true ∧
    UserStore.empty.findOneByEmail (goodCreds.email.getD "") = none ∧
    authenticateUser UserStore.empty goodCreds
      = Except.error ⟨401, "Invalid credentials"⟩ :=
  ⟨by decide, by decide,
    (claim_C1_auth_invalid_credentials UserStore.empty goodCreds
      (by decide) (by decide)).1 (by decide)⟩

/-- Witness for C2 at a concrete store and credentials. -/
theorem claim_C2_witness :
    200 = 200 ∧ ∃ u, wStore.findOneByEmail (goodCreds.email.getD "") = some u ∧
      Body.json [("id", JsVal.num 1), ("firstname", JsVal.str "A"),
        ("lastname", JsVal.str "B"), ("email", JsVal.str "a@b.com")]
        = Body.json
          [("id", JsVal.num (u.id : Int)), ("firstname", JsVal.str u.firstname),
           ("lastname", JsVal.str u.lastname), ("email", JsVal.str u.email)] ∧
      jsLookup [("id", JsVal.num (u.id : Int)), ("firstname", JsVal.str u.firstname),
        ("lastname", JsVal.str u.lastname), ("email", JsVal.str u.email)] "password"
        = JsVal.undef :=
  claim_C2_auth_scrubs_password wStore goodCreds 200
    (Body.json [("id", JsVal.num 1), ("firstname", JsVal.str "A"),
      ("lastname", JsVal.str "B"), ("email", JsVal.str "a@b.com")]) (by rfl)

/-- Witness for C4 at a concrete store and input. -/
theorem claim_C4_witness :
    ∃ fn ln em pw, regInput.firstname = some fn ∧ regInput.lastname = some ln ∧
      regInput.email = some em ∧ regInput.password = some pw ∧
      wStore.rows = UserStore.empty.rows
        ++ [⟨UserStore.empty.nextId, fn, ln, em, bcrypt.hashWith 12 0 pw⟩] ∧
      bcrypt.hashWith 12 0 pw ≠ pw ∧
      201 = 201 ∧ Body.text "1" = Body.text (toString UserStore.empty.nextId) :=
  claim_C4_create_hashes_password 0 UserStore.empty regInput wStore 201
    (Body.text "1") (by rfl)

/-- Witness for C5: the same registration twice in sequence from the empty
store, the second attempt failing 409. -/
theorem claim_C5_witness :
    createUser 1 wStore regInput
      = (wStore, Except.error ⟨409, "This email is already taken."⟩) :=
  claim_C5_duplicate_email.2 0 1 UserStore.empty wStore regInput 201
    (Body.text "1") (by rfl)

/-- Witness for C6 at a concrete store and email. -/
theorem claim_C6_witness :
    findUserByEmail wStore (some "a@b.com") = Except.ok (200, Body.json
      [("id", JsVal.num (wUser.id : Int)), ("firstname", JsVal.str wUser.firstname),
       ("lastname", JsVal.str wUser.lastname), ("email", JsVal.str wUser.email)]) ∧
    jsLookup [("id", JsVal.num (wUser.id : Int)), ("firstname", JsVal.str wUser.firstname),
      ("lastname", JsVal.str wUser.lastname), ("email", JsVal.str wUser.email)] "password"
      = JsVal.undef :=
  (claim_C6_findUserByEmail wStore (some "a@b.com")).2.2 "a@b.com" wUser
    rfl (by decide) (by rfl)

/-- Witness for C7 at a concrete registration body missing the password. -/
theorem claim_C7_witness :
    createUser 0 UserStore.empty wMissingPw = (UserStore.empty,
      Except.error ⟨400,
        (ruleVal validationRules "password").getD "" ++ " cannot be undefined"⟩) :=
  claim_C7_validateFields.2.2.2.2.2.2.2 0 UserStore.empty wMissingPw "password"
    (by decide) (by decide) (by decide)

/-- Witness for C8 at a concrete error value. -/
theorem claim_C8_witness :
    (errorHandler ⟨some 404, some "nope"⟩).1.1 = 404 ∧
    (errorHandler ⟨some 404, some "nope"⟩).1.2 = "nope" :=
  ⟨(claim_C8_errorHandler ⟨some 404, some "nope"⟩).1 404 rfl (by decide),
   (claim_C8_errorHandler ⟨some 404, some "nope"⟩).2.2.1 "nope" rfl (by decide)⟩

/-- Witness for C9 at a concrete failing registration (duplicate email). -/
theorem claim_C9_witness :
    createUser 0 wStore regInput
      = (wStore, Except.error ⟨409, "This email is already taken."⟩) ∧
    wStore = wStore :=
  ⟨by rfl, claim_C9_error_preserves_store 0 wStore regInput wStore
    ⟨409, "This email is already taken."⟩ (by rfl)⟩
